import Mathlib

/-!
Shallow embedding of `cloud_common/protocols/unit/unit_config.py` (aosedge/aos_protocols):
pydantic v2 models `AlertRulePercents`, `AlertRulePercentsOfDisk`, `AlertRulePoints`,
`ResourceRatiosInfo`, `AlertRules`, `ResourceInfo`, `NodeConfig`, `UnitConfig`.

The untrusted wire input is a JSON-compatible structured value.  Validation follows
pydantic v2 default (lax) mode as applied to the declared field annotations:
field population is by alias only (no `populate_by_name` is configured), numeric
fields accept ints, floats and numeric strings (lax coercion of decimal literals),
`ge`/`le`/`gt`/`lt` bounds are checked after coercion, absent required fields give a
"missing" error, and errors carry the location path of the offending field using
alias names.  The embedding is fail-fast: it reports the first error in field
declaration order (pydantic collects all errors; every claim here concerns the
error of a single offending field, for which the first error is the error).
Python numbers are modelled as `ℚ` (the claims only involve values exactly
representable in binary floating point, where float arithmetic is exact).
-/

namespace AosUnitConfig

/-- A JSON-compatible structured input value, as handed to model validation.
Integers and floats are distinguished, as they are in the Python data model. -/
inductive JsonValue : Type
  | null : JsonValue
  | boolean : Bool → JsonValue
  | int : Int → JsonValue
  | float : ℚ → JsonValue
  | str : String → JsonValue
  | arr : List JsonValue → JsonValue
  | obj : List (String × JsonValue) → JsonValue

/-- The error taxonomy of the validation layer (kinds, not pydantic type names):
`missingRequiredField` is pydantic's `missing`, `rangeViolation` covers the
`greater_than`/`less_than`(`_equal`) family, `typeMismatch` the scalar
parsing/type errors, `structuralViolation` the wrong-shape errors
(`model_type`, `list_type`). -/
inductive ErrKind : Type
  | missingRequiredField : ErrKind
  | rangeViolation : ErrKind
  | typeMismatch : ErrKind
  | structuralViolation : ErrKind
  deriving DecidableEq, Repr

/-- A validation error: its kind and the location path from the document root,
one component per object field (alias names) or list index. -/
structure VErr : Type where
  kind : ErrKind
  path : List String
  deriving DecidableEq, Repr

/-- The dotted rendering of an error's location path. -/
def VErr.pathStr (e : VErr) : String :=
  String.intercalate "." e.path

/-- Looks a key up in the field list of a JSON object (Python dict access). -/
def getField (fields : List (String × JsonValue)) (key : String) : Option JsonValue :=
  match fields with
  | [] => none
  | (k, v) :: rest => if k = key then some v else getField rest key

/-- Reads a run of decimal digits into an accumulator; fails on a non-digit. -/
def digitsVal? : List Char → Nat → Option Nat
  | [], acc => some acc
  | c :: cs, acc =>
    if c.isDigit then digitsVal? cs (acc * 10 + (c.toNat - 48)) else none

/-- The value of a non-empty all-digit character list. -/
def natOfDigits? (cs : List Char) : Option Nat :=
  if cs.isEmpty then none else digitsVal? cs 0

/-- Splits a character list at the first dot, if any. -/
def splitOnDot (cs : List Char) : List Char × Option (List Char) :=
  match cs.span (fun c => ¬ (c = '.')) with
  | (intPart, []) => (intPart, none)
  | (intPart, _ :: fracPart) => (intPart, some fracPart)

/-- The rational value of an unsigned decimal literal (`10`, `1.5`). -/
def parseUnsignedQ (cs : List Char) : Option ℚ :=
  match splitOnDot cs with
  | (ip, none) => (natOfDigits? ip).map (fun n => (n : ℚ))
  | (ip, some fp) =>
    match natOfDigits? ip, natOfDigits? fp with
    | some n, some f => some ((n : ℚ) + (f : ℚ) / (10 : ℚ) ^ fp.length)
    | _, _ => none

/-- The rational value of a signed decimal literal, pydantic's lax
string-to-float coercion for plain decimal literals. -/
def parseQ (s : String) : Option ℚ :=
  match s.toList with
  | '-' :: rest => (parseUnsignedQ rest).map (fun q => -q)
  | '+' :: rest => parseUnsignedQ rest
  | cs => parseUnsignedQ cs

/-- The integer value of a signed digit string, pydantic's lax
string-to-int coercion for plain integer literals. -/
def parseZ (s : String) : Option Int :=
  match s.toList with
  | '-' :: rest => (natOfDigits? rest).map (fun n => -(n : Int))
  | '+' :: rest => (natOfDigits? rest).map (fun n => (n : Int))
  | cs => (natOfDigits? cs).map (fun n => (n : Int))

/-- Lax coercion of an input value to a Python `float` field: accepts ints,
floats and numeric strings; everything else is a type mismatch. -/
def asFloat : JsonValue → Except ErrKind ℚ
  | .int n => .ok (n : ℚ)
  | .float q => .ok q
  | .str s =>
    match parseQ s with
    | some q => .ok q
    | none => .error .typeMismatch
  | _ => .error .typeMismatch

/-- Lax coercion of an input value to a Python `int` field: accepts ints,
integral floats and integer strings; a fractional float or anything else is a
type mismatch. -/
def asInt : JsonValue → Except ErrKind Int
  | .int n => .ok n
  | .float q => if q.den = 1 then .ok q.num else .error .typeMismatch
  | .str s =>
    match parseZ s with
    | some n => .ok n
    | none => .error .typeMismatch
  | _ => .error .typeMismatch

/-- Coercion of an input value to a Python `str` field: pydantic does not
coerce numbers to strings. -/
def asStr : JsonValue → Except ErrKind String
  | .str s => .ok s
  | _ => .error .typeMismatch

/-- The `ge`/`le` bound pair of a percent field, checked after coercion. -/
def checkGeLe (lo hi q : ℚ) : Except ErrKind ℚ :=
  if lo ≤ q ∧ q ≤ hi then .ok q else .error .rangeViolation

/-- The `gt` bound of the timeout fields, checked after coercion. -/
def checkGt (lo q : ℚ) : Except ErrKind ℚ :=
  if lo < q then .ok q else .error .rangeViolation

/-- The `ge` bound of the point fields, checked after coercion. -/
def checkGeInt (lo : Int) (n : Int) : Except ErrKind Int :=
  if lo ≤ n then .ok n else .error .rangeViolation

/-- The `ge`/`lt` bound pair of the `priority` field, checked after coercion. -/
def checkGeLtInt (lo hi : Int) (n : Int) : Except ErrKind Int :=
  if lo ≤ n ∧ n < hi then .ok n else .error .rangeViolation

/-- A required scalar field: absent is `missing`; otherwise the coercion and
bound checks run, their error tagged with the field's alias. -/
def reqField (o : List (String × JsonValue)) (key : String)
    (p : JsonValue → Except ErrKind α) : Except VErr α :=
  match getField o key with
  | none => .error ⟨.missingRequiredField, [key]⟩
  | some v =>
    match p v with
    | .error k => .error ⟨k, [key]⟩
    | .ok a => .ok a

/-- An optional scalar field with `default=None`: absent yields `none`; a
present value must pass the coercion (explicit `null` is not accepted since
the annotation is not `Optional`). -/
def optScalarField (o : List (String × JsonValue)) (key : String)
    (p : JsonValue → Except ErrKind α) : Except VErr (Option α) :=
  match getField o key with
  | none => .ok none
  | some v =>
    match p v with
    | .error k => .error ⟨k, [key]⟩
    | .ok a => .ok (some a)

/-- An optional nullable scalar field (`Optional[...]` with `default=None`):
absent or `null` yields `none`. -/
def optNullableScalarField (o : List (String × JsonValue)) (key : String)
    (p : JsonValue → Except ErrKind α) : Except VErr (Option α) :=
  match getField o key with
  | none => .ok none
  | some .null => .ok none
  | some v =>
    match p v with
    | .error k => .error ⟨k, [key]⟩
    | .ok a => .ok (some a)

/-- An optional sub-model field with `default=None`: absent yields `none`; a
present value is validated by the sub-model, its error path extended at the
front with this field's alias. -/
def optModelField (o : List (String × JsonValue)) (key : String)
    (validate : JsonValue → Except VErr α) : Except VErr (Option α) :=
  match getField o key with
  | none => .ok none
  | some v =>
    match validate v with
    | .error e => .error ⟨e.kind, key :: e.path⟩
    | .ok a => .ok (some a)

/-- Validates the elements of a list in order, numbering errors with the
element index from `i` upward. -/
def validateList (validate : JsonValue → Except VErr α) :
    Nat → List JsonValue → Except VErr (List α)
  | _, [] => .ok []
  | i, v :: rest =>
    match validate v with
    | .error e => .error ⟨e.kind, toString i :: e.path⟩
    | .ok a =>
      match validateList validate (i + 1) rest with
      | .error e => .error e
      | .ok as => .ok (a :: as)

/-- An optional list field with `default=None` (annotation `list[T]`, not
`Optional`): absent yields `none`; a present value must be a list, each
element validated in order. -/
def optListField (o : List (String × JsonValue)) (key : String)
    (validate : JsonValue → Except VErr α) : Except VErr (Option (List α)) :=
  match getField o key with
  | none => .ok none
  | some (.arr xs) =>
    match validateList validate 0 xs with
    | .error e => .error ⟨e.kind, key :: e.path⟩
    | .ok as => .ok (some as)
  | some _ => .error ⟨.structuralViolation, [key]⟩

/-- An optional nullable list field (`Optional[list[T]]` with `default=None`):
absent or `null` yields `none`. -/
def optNullableListField (o : List (String × JsonValue)) (key : String)
    (validate : JsonValue → Except VErr α) : Except VErr (Option (List α)) :=
  match getField o key with
  | none => .ok none
  | some .null => .ok none
  | some (.arr xs) =>
    match validateList validate 0 xs with
    | .error e => .error ⟨e.kind, key :: e.path⟩
    | .ok as => .ok (some as)
  | some _ => .error ⟨.structuralViolation, [key]⟩

/-- A required list field: absent is `missing`; a present value must be a
list, each element validated in order. -/
def reqListField (o : List (String × JsonValue)) (key : String)
    (validate : JsonValue → Except VErr α) : Except VErr (List α) :=
  match getField o key with
  | none => .error ⟨.missingRequiredField, [key]⟩
  | some (.arr xs) =>
    match validateList validate 0 xs with
    | .error e => .error ⟨e.kind, key :: e.path⟩
    | .ok as => .ok as
  | some _ => .error ⟨.structuralViolation, [key]⟩

/-- A validated `AlertRulePercents`: a hysteresis rule over a percentage
metric (`unit_config.py` lines 21-71). -/
structure AlertRulePercents : Type where
  min_threshold : ℚ
  max_threshold : ℚ
  min_timeout : ℚ
  deriving DecidableEq, Repr

/-- Validation of `AlertRulePercents` from structured input: fields are
populated by their aliases `minThreshold` (float, `ge=0`, `le=100`),
`maxThreshold` (float, `ge=0`, `le=100`) and `minTimeout` (float, `gt=0`),
in declaration order. -/
def AlertRulePercents.validate (j : JsonValue) : Except VErr AlertRulePercents :=
  match j with
  | .obj o => do
    let a ← reqField o "minThreshold" (fun v => (asFloat v).bind (checkGeLe 0 100))
    let b ← reqField o "maxThreshold" (fun v => (asFloat v).bind (checkGeLe 0 100))
    let c ← reqField o "minTimeout" (fun v => (asFloat v).bind (checkGt 0))
    .ok ⟨a, b, c⟩
  | _ => .error ⟨.structuralViolation, []⟩

/-- A validated `AlertRulePercentsOfDisk`: the threshold for a disk partition,
inheriting the three `AlertRulePercents` fields and adding a `name`
(`unit_config.py` lines 74-84). -/
structure AlertRulePercentsOfDisk : Type where
  min_threshold : ℚ
  max_threshold : ℚ
  min_timeout : ℚ
  name : String
  deriving DecidableEq, Repr

/-- Validation of `AlertRulePercentsOfDisk`: the inherited fields in parent
declaration order, then the mandatory `name` (a plain `str`, no length or
emptiness constraint is declared on it). -/
def AlertRulePercentsOfDisk.validate (j : JsonValue) :
    Except VErr AlertRulePercentsOfDisk :=
  match j with
  | .obj o => do
    let a ← reqField o "minThreshold" (fun v => (asFloat v).bind (checkGeLe 0 100))
    let b ← reqField o "maxThreshold" (fun v => (asFloat v).bind (checkGeLe 0 100))
    let c ← reqField o "minTimeout" (fun v => (asFloat v).bind (checkGt 0))
    let n ← reqField o "name" asStr
    .ok ⟨a, b, c, n⟩
  | _ => .error ⟨.structuralViolation, []⟩

/-- A validated `AlertRulePoints`: a hysteresis rule over absolute counts
(DMIPs, bytes) (`unit_config.py` lines 87-123). -/
structure AlertRulePoints : Type where
  min_threshold : Int
  max_threshold : Int
  min_timeout : ℚ
  deriving DecidableEq, Repr

/-- Validation of `AlertRulePoints`: `minThreshold` (int, `ge=0`, no upper
bound), `maxThreshold` (int, `ge=0`, no upper bound), `minTimeout`
(float, `gt=0`). -/
def AlertRulePoints.validate (j : JsonValue) : Except VErr AlertRulePoints :=
  match j with
  | .obj o => do
    let a ← reqField o "minThreshold" (fun v => (asInt v).bind (checkGeInt 0))
    let b ← reqField o "maxThreshold" (fun v => (asInt v).bind (checkGeInt 0))
    let c ← reqField o "minTimeout" (fun v => (asFloat v).bind (checkGt 0))
    .ok ⟨a, b, c⟩
  | _ => .error ⟨.structuralViolation, []⟩

/-- A validated `ResourceRatiosInfo`: four independently optional float
fields `cpu`, `ram`, `storage`, `state`, each with `default=None` and no
declared range bound (`unit_config.py` lines 126-162). -/
structure ResourceRatiosInfo : Type where
  cpu : Option ℚ
  ram : Option ℚ
  storage : Option ℚ
  state : Option ℚ
  deriving DecidableEq, Repr

/-- Validation of `ResourceRatiosInfo`: each field is absent-or-float; a
present field is only type-coerced, never range-checked. -/
def ResourceRatiosInfo.validate (j : JsonValue) : Except VErr ResourceRatiosInfo :=
  match j with
  | .obj o => do
    let a ← optScalarField o "cpu" asFloat
    let b ← optScalarField o "ram" asFloat
    let c ← optScalarField o "storage" asFloat
    let d ← optScalarField o "state" asFloat
    .ok ⟨a, b, c, d⟩
  | _ => .error ⟨.structuralViolation, []⟩

/-- A validated `AlertRules` bundle: five independently optional slots
(`unit_config.py` lines 165-209). -/
structure AlertRules : Type where
  cpu : Option AlertRulePercents
  ram : Option AlertRulePercents
  partitions : Option (List AlertRulePercentsOfDisk)
  download : Option AlertRulePoints
  upload : Option AlertRulePoints
  deriving DecidableEq, Repr

/-- Validation of `AlertRules`: `cpu` and `ram` delegate to
`AlertRulePercents`, `partitions` (declared `Optional[list[...]]`, so `null`
is also accepted) to a list of `AlertRulePercentsOfDisk`, `download` and
`upload` to `AlertRulePoints`; each slot has `default=None`. -/
def AlertRules.validate (j : JsonValue) : Except VErr AlertRules :=
  match j with
  | .obj o => do
    let c ← optModelField o "cpu" AlertRulePercents.validate
    let r ← optModelField o "ram" AlertRulePercents.validate
    let p ← optNullableListField o "partitions" AlertRulePercentsOfDisk.validate
    let d ← optModelField o "download" AlertRulePoints.validate
    let u ← optModelField o "upload" AlertRulePoints.validate
    .ok ⟨c, r, p, d, u⟩
  | _ => .error ⟨.structuralViolation, []⟩

/-- Modelled from the spec: `AosDeviceInfo`, `AosFileSystemMount` and
`AosHostRecord` (imported from `cloud_common.protocols.unit.common`, not part
of this core) are consumed as opaque validated sub-objects whose own
constraint rules are out of this core's scope; the embedding accepts any
structured value and keeps it as-is. -/
def opaqueExternal (v : JsonValue) : Except VErr JsonValue :=
  .ok v

/-- A validated `ResourceInfo`: a named grantable capability bundle
(`unit_config.py` lines 212-256). -/
structure ResourceInfo : Type where
  name : String
  groups : Option (List String)
  mounts : Option (List JsonValue)
  envs : Option (List String)
  hosts : Option (List JsonValue)

/-- Validation of `ResourceInfo`: `name` is the only required field; the
list fields `groups`, `mounts`, `envs` and `hosts` have `default=None`. -/
def ResourceInfo.validate (j : JsonValue) : Except VErr ResourceInfo :=
  match j with
  | .obj o => do
    let n ← reqField o "name" asStr
    let g ← optListField o "groups" (fun v =>
      match asStr v with
      | .error k => .error ⟨k, []⟩
      | .ok s => .ok s)
    let m ← optListField o "mounts" opaqueExternal
    let e ← optListField o "envs" (fun v =>
      match asStr v with
      | .error k => .error ⟨k, []⟩
      | .ok s => .ok s)
    let h ← optListField o "hosts" opaqueExternal
    .ok ⟨n, g, m, e, h⟩
  | _ => .error ⟨.structuralViolation, []⟩

/-- A validated `NodeConfig`: one node's full configuration
(`unit_config.py` lines 259-317).  `node_type` and `node_id` use the
`TypeNodeTypeMandatory` / `TypeNodeIdOptional` annotations imported from
`cloud_common.protocols.unit.types` (not part of this core); modelled from
the spec: `node_type` is a mandatory string with wire alias `nodeType`,
`node_id` an optional nullable string with wire alias `nodeId`. -/
structure NodeConfig : Type where
  node_type : String
  node_id : Option String
  alert_rules : Option AlertRules
  resource_ratios : Option ResourceRatiosInfo
  devices : Option (List JsonValue)
  resources : Option (List ResourceInfo)
  labels : Option (List String)
  priority : Int

/-- Validation of `NodeConfig`, fields in declaration order: `nodeType`
(required string), `nodeId` (optional string), `alertRules` (optional
`AlertRules`), `resourceRatios` (optional `ResourceRatiosInfo`), `devices`
(optional list of opaque `AosDeviceInfo`), `resources` (optional list of
`ResourceInfo`), `labels` (optional list of strings, no alias declared),
`priority` (required int, `ge=0`, `lt=(2**32)-1`). -/
def NodeConfig.validate (j : JsonValue) : Except VErr NodeConfig :=
  match j with
  | .obj o => do
    let nt ← reqField o "nodeType" asStr
    let ni ← optNullableScalarField o "nodeId" asStr
    let ar ← optModelField o "alertRules" AlertRules.validate
    let rr ← optModelField o "resourceRatios" ResourceRatiosInfo.validate
    let dv ← optListField o "devices" opaqueExternal
    let rs ← optListField o "resources" ResourceInfo.validate
    let lb ← optListField o "labels" (fun v =>
      match asStr v with
      | .error k => .error ⟨k, []⟩
      | .ok s => .ok s)
    let pr ← reqField o "priority" (fun v => (asInt v).bind (checkGeLtInt 0 (2 ^ 32 - 1)))
    .ok ⟨nt, ni, ar, rr, dv, rs, lb, pr⟩
  | _ => .error ⟨.structuralViolation, []⟩

/-- The `format_version` union `str | int`: both wire representations are
valid and the original representation is kept as a tag. -/
inductive FormatVersion : Type
  | str : String → FormatVersion
  | int : Int → FormatVersion
  deriving DecidableEq, Repr

/-- Coercion of an input value to the `str | int` union: a string stays a
string, an integer stays an integer (pydantic v2 smart-union: no cross
coercion between the members), anything else fails both members. -/
def asFormatVersion : JsonValue → Except ErrKind FormatVersion
  | .str s => .ok (.str s)
  | .int n => .ok (.int n)
  | _ => .error .typeMismatch

/-- A validated `UnitConfig`: the top-level envelope
(`unit_config.py` lines 320-338).  `version` uses the `TypeVersionMandatory`
annotation (not part of this core); modelled from the spec: a mandatory
string with wire name `version`. -/
structure UnitConfig : Type where
  format_version : FormatVersion
  version : String
  nodes : List NodeConfig

/-- Validation of `UnitConfig`: `formatVersion` (required, `str | int`),
`version` (required string), `nodes` (required list of `NodeConfig`, order
preserved; no alias declared). -/
def UnitConfig.validate (j : JsonValue) : Except VErr UnitConfig :=
  match j with
  | .obj o => do
    let fv ← reqField o "formatVersion" asFormatVersion
    let vr ← reqField o "version" asStr
    let ns ← reqListField o "nodes" NodeConfig.validate
    .ok ⟨fv, vr, ns⟩
  | _ => .error ⟨.structuralViolation, []⟩

/-- The wire entry of an optional field: an absent (`None`) field is omitted
from the serialized document. -/
def optEntry (key : String) : Option JsonValue → List (String × JsonValue)
  | none => []
  | some v => [(key, v)]

/-- Modelled from the spec: serialization to the wire representation (the
repository's dump configuration is not part of this core) emits exactly the
lowerCamelCase wire names and treats absent optional fields as "not
configured", omitting them from the document. -/
def AlertRulePercents.serialize (r : AlertRulePercents) : JsonValue :=
  .obj [("minThreshold", .float r.min_threshold),
        ("maxThreshold", .float r.max_threshold),
        ("minTimeout", .float r.min_timeout)]

/-- Wire form of `AlertRulePercentsOfDisk` (see `AlertRulePercents.serialize`). -/
def AlertRulePercentsOfDisk.serialize (r : AlertRulePercentsOfDisk) : JsonValue :=
  .obj [("minThreshold", .float r.min_threshold),
        ("maxThreshold", .float r.max_threshold),
        ("minTimeout", .float r.min_timeout),
        ("name", .str r.name)]

/-- Wire form of `AlertRulePoints` (see `AlertRulePercents.serialize`). -/
def AlertRulePoints.serialize (r : AlertRulePoints) : JsonValue :=
  .obj [("minThreshold", .int r.min_threshold),
        ("maxThreshold", .int r.max_threshold),
        ("minTimeout", .float r.min_timeout)]

/-- Wire form of `ResourceRatiosInfo`, absent fields omitted. -/
def ResourceRatiosInfo.serialize (r : ResourceRatiosInfo) : JsonValue :=
  .obj (optEntry "cpu" (r.cpu.map .float) ++
        optEntry "ram" (r.ram.map .float) ++
        optEntry "storage" (r.storage.map .float) ++
        optEntry "state" (r.state.map .float))

/-- Wire form of `AlertRules`, absent slots omitted. -/
def AlertRules.serialize (a : AlertRules) : JsonValue :=
  .obj (optEntry "cpu" (a.cpu.map AlertRulePercents.serialize) ++
        optEntry "ram" (a.ram.map AlertRulePercents.serialize) ++
        optEntry "partitions"
          (a.partitions.map (fun l => .arr (l.map AlertRulePercentsOfDisk.serialize))) ++
        optEntry "download" (a.download.map AlertRulePoints.serialize) ++
        optEntry "upload" (a.upload.map AlertRulePoints.serialize))

/-- Wire form of `ResourceInfo`, absent list fields omitted; the opaque
external sub-objects are emitted as received. -/
def ResourceInfo.serialize (r : ResourceInfo) : JsonValue :=
  .obj ([("name", .str r.name)] ++
        optEntry "groups" (r.groups.map (fun l => .arr (l.map .str))) ++
        optEntry "mounts" (r.mounts.map .arr) ++
        optEntry "envs" (r.envs.map (fun l => .arr (l.map .str))) ++
        optEntry "hosts" (r.hosts.map .arr))

/-- Wire form of `NodeConfig`, absent optional fields omitted. -/
def NodeConfig.serialize (n : NodeConfig) : JsonValue :=
  .obj ([("nodeType", .str n.node_type)] ++
        optEntry "nodeId" (n.node_id.map .str) ++
        optEntry "alertRules" (n.alert_rules.map AlertRules.serialize) ++
        optEntry "resourceRatios" (n.resource_ratios.map ResourceRatiosInfo.serialize) ++
        optEntry "devices" (n.devices.map .arr) ++
        optEntry "resources" (n.resources.map (fun l => .arr (l.map ResourceInfo.serialize))) ++
        optEntry "labels" (n.labels.map (fun l => .arr (l.map .str))) ++
        [("priority", .int n.priority)])

/-- Wire form of the `str | int` union: the original representation is kept. -/
def FormatVersion.serialize : FormatVersion → JsonValue
  | .str s => .str s
  | .int n => .int n

/-- Wire form of `UnitConfig`: all three fields are required, `nodes` order
is preserved. -/
def UnitConfig.serialize (u : UnitConfig) : JsonValue :=
  .obj [("formatVersion", u.format_version.serialize),
        ("version", .str u.version),
        ("nodes", .arr (u.nodes.map NodeConfig.serialize))]

/-- The invariant every validated `AlertRulePercents` satisfies: both percent
bounds in `[0, 100]` and a strictly positive timeout. -/
def AlertRulePercents.WF (r : AlertRulePercents) : Prop :=
  0 ≤ r.min_threshold ∧ r.min_threshold ≤ 100 ∧
    0 ≤ r.max_threshold ∧ r.max_threshold ≤ 100 ∧ 0 < r.min_timeout

/-- The invariant of a validated `AlertRulePercentsOfDisk`: the inherited
percent bounds (the `name` string carries no declared constraint). -/
def AlertRulePercentsOfDisk.WF (r : AlertRulePercentsOfDisk) : Prop :=
  0 ≤ r.min_threshold ∧ r.min_threshold ≤ 100 ∧
    0 ≤ r.max_threshold ∧ r.max_threshold ≤ 100 ∧ 0 < r.min_timeout

/-- The invariant of a validated `AlertRulePoints`: non-negative bounds and a
strictly positive timeout. -/
def AlertRulePoints.WF (r : AlertRulePoints) : Prop :=
  0 ≤ r.min_threshold ∧ 0 ≤ r.max_threshold ∧ 0 < r.min_timeout

/-- The invariant of a validated `AlertRules`: every present slot is
well-formed. -/
def AlertRules.WF (a : AlertRules) : Prop :=
  (∀ x ∈ a.cpu, x.WF) ∧ (∀ x ∈ a.ram, x.WF) ∧
    (∀ l ∈ a.partitions, ∀ x ∈ l, x.WF) ∧
    (∀ x ∈ a.download, x.WF) ∧ (∀ x ∈ a.upload, x.WF)

/-- The invariant of a validated `NodeConfig`: well-formed alert rules and
the `priority` range bound. -/
def NodeConfig.WF (n : NodeConfig) : Prop :=
  (∀ a ∈ n.alert_rules, a.WF) ∧ 0 ≤ n.priority ∧ n.priority < 2 ^ 32 - 1

/-- The invariant of a validated `UnitConfig`: every node is well-formed. -/
def UnitConfig.WF (u : UnitConfig) : Prop :=
  ∀ n ∈ u.nodes, n.WF

theorem bind_ok_iff {ε α β : Type} {e : Except ε α} {f : α → Except ε β} {b : β} :
    (e >>= f) = .ok b ↔ ∃ a, e = .ok a ∧ f a = .ok b := by
  cases e <;> simp [Bind.bind, Except.bind]

theorem ok_bind {ε α β : Type} (a : α) (f : α → Except ε β) :
    ((Except.ok a : Except ε α) >>= f) = f a := rfl

theorem getField_append (xs ys : List (String × JsonValue)) (key : String) :
    getField (xs ++ ys) key = (getField xs key).or (getField ys key) := by
  induction xs with
  | nil => simp [getField]
  | cons kv rest ih =>
    obtain ⟨k, v⟩ := kv
    by_cases h : k = key <;> simp [getField, h, ih]

theorem getField_optEntry (k : String) (v : Option JsonValue) (key : String) :
    getField (optEntry k v) key = if k = key then v else none := by
  cases v with
  | none => simp [optEntry, getField]
  | some x => by_cases h : k = key <;> simp [optEntry, getField, h]

theorem reqField_ok_inv {α : Type} {o : List (String × JsonValue)} {key : String}
    {p : JsonValue → Except ErrKind α} {a : α}
    (h : reqField o key p = .ok a) : ∃ v, p v = .ok a := by
  unfold reqField at h
  cases hg : getField o key with
  | none => rw [hg] at h; exact absurd h (by simp)
  | some v =>
    rw [hg] at h
    dsimp only at h
    cases hp : p v with
    | error k => rw [hp] at h; exact absurd h (by simp)
    | ok x => rw [hp] at h; simp at h; exact ⟨v, by rw [hp, h]⟩

theorem reqField_of {α : Type} {o : List (String × JsonValue)} {key : String}
    {p : JsonValue → Except ErrKind α} {v : JsonValue} {a : α}
    (hget : getField o key = some v) (hp : p v = .ok a) : reqField o key p = .ok a := by
  unfold reqField
  rw [hget]
  dsimp only
  rw [hp]

theorem floatGeLe_ok {v : JsonValue} {lo hi q : ℚ}
    (h : (asFloat v).bind (checkGeLe lo hi) = .ok q) : lo ≤ q ∧ q ≤ hi := by
  cases hv : asFloat v with
  | error k => rw [hv] at h; exact absurd h (by simp [Except.bind])
  | ok x =>
    rw [hv] at h
    simp only [Except.bind, checkGeLe] at h
    split at h
    · next hc => simp at h; exact h ▸ hc
    · exact absurd h (by simp)

theorem floatGt_ok {v : JsonValue} {lo q : ℚ}
    (h : (asFloat v).bind (checkGt lo) = .ok q) : lo < q := by
  cases hv : asFloat v with
  | error k => rw [hv] at h; exact absurd h (by simp [Except.bind])
  | ok x =>
    rw [hv] at h
    simp only [Except.bind, checkGt] at h
    split at h
    · next hc => simp at h; exact h ▸ hc
    · exact absurd h (by simp)

theorem intGe_ok {v : JsonValue} {lo n : Int}
    (h : (asInt v).bind (checkGeInt lo) = .ok n) : lo ≤ n := by
  cases hv : asInt v with
  | error k => rw [hv] at h; exact absurd h (by simp [Except.bind])
  | ok x =>
    rw [hv] at h
    simp only [Except.bind, checkGeInt] at h
    split at h
    · next hc => simp at h; exact h ▸ hc
    · exact absurd h (by simp)

theorem intGeLt_ok {v : JsonValue} {lo hi n : Int}
    (h : (asInt v).bind (checkGeLtInt lo hi) = .ok n) : lo ≤ n ∧ n < hi := by
  cases hv : asInt v with
  | error k => rw [hv] at h; exact absurd h (by simp [Except.bind])
  | ok x =>
    rw [hv] at h
    simp only [Except.bind, checkGeLtInt] at h
    split at h
    · next hc => simp at h; exact h ▸ hc
    · exact absurd h (by simp)

theorem optModelField_ok_inv {α : Type} {o : List (String × JsonValue)} {key : String}
    {f : JsonValue → Except VErr α} {x : Option α}
    (h : optModelField o key f = .ok x) : ∀ a ∈ x, ∃ v, f v = .ok a := by
  unfold optModelField at h
  cases hg : getField o key with
  | none => rw [hg] at h; simp at h; simp [← h]
  | some v =>
    rw [hg] at h
    dsimp only at h
    cases hf : f v with
    | error e => rw [hf] at h; exact absurd h (by simp)
    | ok a =>
      rw [hf] at h
      simp at h
      intro b hb
      rw [← h] at hb
      simp at hb
      exact ⟨v, hb ▸ hf⟩

theorem optModelField_of {α : Type} {o : List (String × JsonValue)} {key : String}
    {f : JsonValue → Except VErr α} {g : α → JsonValue} {x : Option α}
    (hget : getField o key = x.map g) (hrt : ∀ a ∈ x, f (g a) = .ok a) :
    optModelField o key f = .ok x := by
  cases x with
  | none => simp_all [optModelField]
  | some a =>
    simp only [Option.map_some'] at hget
    unfold optModelField
    rw [hget]
    dsimp only
    rw [hrt a rfl]

theorem validateList_ok_inv {α : Type} {f : JsonValue → Except VErr α} :
    ∀ {i : Nat} {xs : List JsonValue} {as : List α},
      validateList f i xs = .ok as → ∀ a ∈ as, ∃ v, f v = .ok a := by
  intro i xs
  induction xs generalizing i with
  | nil =>
    intro as h
    cases as with
    | nil => simp
    | cons a rest => simp [validateList] at h
  | cons v rest ih =>
    intro as h
    unfold validateList at h
    cases hv : f v with
    | error e => rw [hv] at h; exact absurd h (by simp)
    | ok a =>
      rw [hv] at h
      dsimp only at h
      cases hr : validateList f (i + 1) rest with
      | error e => rw [hr] at h; exact absurd h (by simp)
      | ok as₀ =>
        rw [hr] at h
        simp at h
        intro b hb
        rw [← h] at hb
        rcases List.mem_cons.mp hb with hb | hb
        · exact ⟨v, hb ▸ hv⟩
        · exact ih hr b hb

theorem validateList_map_ok {α : Type} {f : JsonValue → Except VErr α} {g : α → JsonValue}
    {l : List α} (hrt : ∀ a ∈ l, f (g a) = .ok a) :
    ∀ i, validateList f i (l.map g) = .ok l := by
  induction l with
  | nil => intro i; simp [validateList]
  | cons a rest ih =>
    intro i
    have ha : f (g a) = .ok a := hrt a (List.mem_cons_self a rest)
    have hr : validateList f (i + 1) (rest.map g) = .ok rest :=
      ih (fun b hb => hrt b (List.mem_cons_of_mem a hb)) (i + 1)
    simp [validateList, ha, hr]

theorem validateList_opaque : ∀ (i : Nat) (xs : List JsonValue),
    validateList opaqueExternal i xs = .ok xs := by
  intro i xs
  induction xs generalizing i with
  | nil => simp [validateList]
  | cons v rest ih => simp [validateList, opaqueExternal, ih]

theorem optListField_ok_inv {α : Type} {o : List (String × JsonValue)} {key : String}
    {f : JsonValue → Except VErr α} {x : Option (List α)}
    (h : optListField o key f = .ok x) : ∀ l ∈ x, ∀ a ∈ l, ∃ v, f v = .ok a := by
  unfold optListField at h
  cases hg : getField o key with
  | none => rw [hg] at h; simp at h; simp [← h]
  | some v =>
    rw [hg] at h
    cases v with
    | arr xs =>
      dsimp only at h
      cases hl : validateList f 0 xs with
      | error e => rw [hl] at h; exact absurd h (by simp)
      | ok as =>
        rw [hl] at h
        simp at h
        intro l hlx
        rw [← h] at hlx
        simp at hlx
        exact fun a ha => validateList_ok_inv hl a (hlx ▸ ha)
    | null => exact absurd h (by simp)
    | boolean b => exact absurd h (by simp)
    | int n => exact absurd h (by simp)
    | float q => exact absurd h (by simp)
    | str s => exact absurd h (by simp)
    | obj fs => exact absurd h (by simp)

theorem optListField_of {α : Type} {o : List (String × JsonValue)} {key : String}
    {f : JsonValue → Except VErr α} {g : α → JsonValue} {x : Option (List α)}
    (hget : getField o key = x.map (fun l => .arr (l.map g)))
    (hrt : ∀ l ∈ x, ∀ a ∈ l, f (g a) = .ok a) :
    optListField o key f = .ok x := by
  cases x with
  | none => simp_all [optListField]
  | some l =>
    simp only [Option.map_some'] at hget
    unfold optListField
    rw [hget]
    dsimp only
    rw [validateList_map_ok (hrt l rfl) 0]

theorem optNullableListField_ok_inv {α : Type} {o : List (String × JsonValue)} {key : String}
    {f : JsonValue → Except VErr α} {x : Option (List α)}
    (h : optNullableListField o key f = .ok x) : ∀ l ∈ x, ∀ a ∈ l, ∃ v, f v = .ok a := by
  unfold optNullableListField at h
  cases hg : getField o key with
  | none => rw [hg] at h; simp at h; simp [← h]
  | some v =>
    rw [hg] at h
    cases v with
    | arr xs =>
      dsimp only at h
      cases hl : validateList f 0 xs with
      | error e => rw [hl] at h; exact absurd h (by simp)
      | ok as =>
        rw [hl] at h
        simp at h
        intro l hlx
        rw [← h] at hlx
        simp at hlx
        exact fun a ha => validateList_ok_inv hl a (hlx ▸ ha)
    | null => simp at h; simp [← h]
    | boolean b => exact absurd h (by simp)
    | int n => exact absurd h (by simp)
    | float q => exact absurd h (by simp)
    | str s => exact absurd h (by simp)
    | obj fs => exact absurd h (by simp)

theorem optNullableListField_of {α : Type} {o : List (String × JsonValue)} {key : String}
    {f : JsonValue → Except VErr α} {g : α → JsonValue} {x : Option (List α)}
    (hget : getField o key = x.map (fun l => .arr (l.map g)))
    (hrt : ∀ l ∈ x, ∀ a ∈ l, f (g a) = .ok a) :
    optNullableListField o key f = .ok x := by
  cases x with
  | none => simp_all [optNullableListField]
  | some l =>
    simp only [Option.map_some'] at hget
    unfold optNullableListField
    rw [hget]
    dsimp only
    rw [validateList_map_ok (hrt l rfl) 0]

theorem reqListField_ok_inv {α : Type} {o : List (String × JsonValue)} {key : String}
    {f : JsonValue → Except VErr α} {as : List α}
    (h : reqListField o key f = .ok as) : ∀ a ∈ as, ∃ v, f v = .ok a := by
  unfold reqListField at h
  cases hg : getField o key with
  | none => rw [hg] at h; exact absurd h (by simp)
  | some v =>
    rw [hg] at h
    cases v with
    | arr xs =>
      dsimp only at h
      cases hl : validateList f 0 xs with
      | error e => rw [hl] at h; exact absurd h (by simp)
      | ok as₀ =>
        rw [hl] at h
        simp at h
        exact fun a ha => validateList_ok_inv hl a (h ▸ ha)
    | null => exact absurd h (by simp)
    | boolean b => exact absurd h (by simp)
    | int n => exact absurd h (by simp)
    | float q => exact absurd h (by simp)
    | str s => exact absurd h (by simp)
    | obj fs => exact absurd h (by simp)

theorem reqListField_of {α : Type} {o : List (String × JsonValue)} {key : String}
    {f : JsonValue → Except VErr α} {g : α → JsonValue} {l : List α}
    (hget : getField o key = some (.arr (l.map g)))
    (hrt : ∀ a ∈ l, f (g a) = .ok a) :
    reqListField o key f = .ok l := by
  unfold reqListField
  rw [hget]
  dsimp only
  rw [validateList_map_ok hrt 0]

theorem optScalarField_float_of {o : List (String × JsonValue)} {key : String}
    {x : Option ℚ} (hget : getField o key = x.map .float) :
    optScalarField o key asFloat = .ok x := by
  cases x <;> simp_all [optScalarField, asFloat]

theorem optNullableScalarField_str_of {o : List (String × JsonValue)} {key : String}
    {x : Option String} (hget : getField o key = x.map .str) :
    optNullableScalarField o key asStr = .ok x := by
  cases x <;> simp_all [optNullableScalarField, asStr]

theorem percents_validate_wf {j : JsonValue} {r : AlertRulePercents}
    (h : AlertRulePercents.validate j = .ok r) : r.WF := by
  cases j with
  | obj o =>
    simp only [AlertRulePercents.validate, bind_ok_iff] at h
    obtain ⟨a, ha, b, hb, c, hc, hok⟩ := h
    obtain ⟨v1, hv1⟩ := reqField_ok_inv ha
    obtain ⟨v2, hv2⟩ := reqField_ok_inv hb
    obtain ⟨v3, hv3⟩ := reqField_ok_inv hc
    have b1 := floatGeLe_ok hv1
    have b2 := floatGeLe_ok hv2
    have b3 := floatGt_ok hv3
    simp at hok
    rw [← hok]
    exact ⟨b1.1, b1.2, b2.1, b2.2, b3⟩
  | null => simp [AlertRulePercents.validate] at h
  | boolean b => simp [AlertRulePercents.validate] at h
  | int n => simp [AlertRulePercents.validate] at h
  | float q => simp [AlertRulePercents.validate] at h
  | str s => simp [AlertRulePercents.validate] at h
  | arr xs => simp [AlertRulePercents.validate] at h

theorem disk_validate_wf {j : JsonValue} {r : AlertRulePercentsOfDisk}
    (h : AlertRulePercentsOfDisk.validate j = .ok r) : r.WF := by
  cases j with
  | obj o =>
    simp only [AlertRulePercentsOfDisk.validate, bind_ok_iff] at h
    obtain ⟨a, ha, b, hb, c, hc, n, hn, hok⟩ := h
    obtain ⟨v1, hv1⟩ := reqField_ok_inv ha
    obtain ⟨v2, hv2⟩ := reqField_ok_inv hb
    obtain ⟨v3, hv3⟩ := reqField_ok_inv hc
    have b1 := floatGeLe_ok hv1
    have b2 := floatGeLe_ok hv2
    have b3 := floatGt_ok hv3
    simp at hok
    rw [← hok]
    exact ⟨b1.1, b1.2, b2.1, b2.2, b3⟩
  | null => simp [AlertRulePercentsOfDisk.validate] at h
  | boolean b => simp [AlertRulePercentsOfDisk.validate] at h
  | int n => simp [AlertRulePercentsOfDisk.validate] at h
  | float q => simp [AlertRulePercentsOfDisk.validate] at h
  | str s => simp [AlertRulePercentsOfDisk.validate] at h
  | arr xs => simp [AlertRulePercentsOfDisk.validate] at h

theorem points_validate_wf {j : JsonValue} {r : AlertRulePoints}
    (h : AlertRulePoints.validate j = .ok r) : r.WF := by
  cases j with
  | obj o =>
    simp only [AlertRulePoints.validate, bind_ok_iff] at h
    obtain ⟨a, ha, b, hb, c, hc, hok⟩ := h
    obtain ⟨v1, hv1⟩ := reqField_ok_inv ha
    obtain ⟨v2, hv2⟩ := reqField_ok_inv hb
    obtain ⟨v3, hv3⟩ := reqField_ok_inv hc
    have b1 := intGe_ok hv1
    have b2 := intGe_ok hv2
    have b3 := floatGt_ok hv3
    simp at hok
    rw [← hok]
    exact ⟨b1, b2, b3⟩
  | null => simp [AlertRulePoints.validate] at h
  | boolean b => simp [AlertRulePoints.validate] at h
  | int n => simp [AlertRulePoints.validate] at h
  | float q => simp [AlertRulePoints.validate] at h
  | str s => simp [AlertRulePoints.validate] at h
  | arr xs => simp [AlertRulePoints.validate] at h

theorem alert_rules_validate_wf {j : JsonValue} {a : AlertRules}
    (h : AlertRules.validate j = .ok a) : a.WF := by
  cases j with
  | obj o =>
    simp only [AlertRules.validate, bind_ok_iff] at h
    obtain ⟨c, hc, r, hr, p, hp, d, hd, u, hu, hok⟩ := h
    simp at hok
    rw [← hok]
    refine ⟨?_, ?_, ?_, ?_, ?_⟩
    · intro x hx
      obtain ⟨v, hv⟩ := optModelField_ok_inv hc x hx
      exact percents_validate_wf hv
    · intro x hx
      obtain ⟨v, hv⟩ := optModelField_ok_inv hr x hx
      exact percents_validate_wf hv
    · intro l hl x hx
      obtain ⟨v, hv⟩ := optNullableListField_ok_inv hp l hl x hx
      exact disk_validate_wf hv
    · intro x hx
      obtain ⟨v, hv⟩ := optModelField_ok_inv hd x hx
      exact points_validate_wf hv
    · intro x hx
      obtain ⟨v, hv⟩ := optModelField_ok_inv hu x hx
      exact points_validate_wf hv
  | null => simp [AlertRules.validate] at h
  | boolean b => simp [AlertRules.validate] at h
  | int n => simp [AlertRules.validate] at h
  | float q => simp [AlertRules.validate] at h
  | str s => simp [AlertRules.validate] at h
  | arr xs => simp [AlertRules.validate] at h

theorem node_validate_wf {j : JsonValue} {n : NodeConfig}
    (h : NodeConfig.validate j = .ok n) : n.WF := by
  cases j with
  | obj o =>
    simp only [NodeConfig.validate, bind_ok_iff] at h
    obtain ⟨nt, hnt, ni, hni, ar, har, rr, hrr, dv, hdv, rs, hrs, lb, hlb, pr, hpr, hok⟩ := h
    obtain ⟨v, hv⟩ := reqField_ok_inv hpr
    have bp := intGeLt_ok hv
    simp at hok
    rw [← hok]
    refine ⟨?_, bp.1, bp.2⟩
    intro x hx
    obtain ⟨w, hw⟩ := optModelField_ok_inv har x hx
    exact alert_rules_validate_wf hw
  | null => simp [NodeConfig.validate] at h
  | boolean b => simp [NodeConfig.validate] at h
  | int n => simp [NodeConfig.validate] at h
  | float q => simp [NodeConfig.validate] at h
  | str s => simp [NodeConfig.validate] at h
  | arr xs => simp [NodeConfig.validate] at h

theorem unit_validate_wf {j : JsonValue} {u : UnitConfig}
    (h : UnitConfig.validate j = .ok u) : u.WF := by
  cases j with
  | obj o =>
    simp only [UnitConfig.validate, bind_ok_iff] at h
    obtain ⟨fv, hfv, vr, hvr, ns, hns, hok⟩ := h
    simp at hok
    rw [← hok]
    intro x hx
    obtain ⟨v, hv⟩ := reqListField_ok_inv hns x hx
    exact node_validate_wf hv
  | null => simp [UnitConfig.validate] at h
  | boolean b => simp [UnitConfig.validate] at h
  | int n => simp [UnitConfig.validate] at h
  | float q => simp [UnitConfig.validate] at h
  | str s => simp [UnitConfig.validate] at h
  | arr xs => simp [UnitConfig.validate] at h

theorem percents_roundtrip {r : AlertRulePercents} (h : r.WF) :
    AlertRulePercents.validate r.serialize = .ok r := by
  obtain ⟨r1, r2, r3⟩ := r
  obtain ⟨h1, h2, h3, h4, h5⟩ := h
  simp +decide [AlertRulePercents.validate, AlertRulePercents.serialize, reqField, getField, asFloat, checkGeLe, checkGt,
    h1, h2, h3, h4, h5, Bind.bind, Except.bind]

theorem disk_roundtrip {r : AlertRulePercentsOfDisk} (h : r.WF) :
    AlertRulePercentsOfDisk.validate r.serialize = .ok r := by
  obtain ⟨r1, r2, r3, nm⟩ := r
  obtain ⟨h1, h2, h3, h4, h5⟩ := h
  simp +decide [AlertRulePercentsOfDisk.validate, AlertRulePercentsOfDisk.serialize, reqField, getField, asFloat, asStr, checkGeLe, checkGt,
    h1, h2, h3, h4, h5, Bind.bind, Except.bind]

theorem points_roundtrip {r : AlertRulePoints} (h : r.WF) :
    AlertRulePoints.validate r.serialize = .ok r := by
  obtain ⟨r1, r2, r3⟩ := r
  obtain ⟨h1, h2, h3⟩ := h
  simp +decide [AlertRulePoints.validate, AlertRulePoints.serialize, reqField, getField, asInt, asFloat, checkGeInt, checkGt,
    h1, h2, h3, Bind.bind, Except.bind]

theorem ratios_roundtrip (r : ResourceRatiosInfo) :
    ResourceRatiosInfo.validate r.serialize = .ok r := by
  obtain ⟨a, b, c, d⟩ := r
  rcases a with _ | qa <;> rcases b with _ | qb <;> rcases c with _ | qc <;> rcases d with _ | qd <;>
    simp +decide [ResourceRatiosInfo.validate, ResourceRatiosInfo.serialize, optScalarField, optEntry, getField, asFloat,
      Bind.bind, Except.bind]

theorem alert_rules_validate_fields {o : List (String × JsonValue)}
    {c r : Option AlertRulePercents} {p : Option (List AlertRulePercentsOfDisk)}
    {d u : Option AlertRulePoints}
    (h1 : optModelField o "cpu" AlertRulePercents.validate = .ok c)
    (h2 : optModelField o "ram" AlertRulePercents.validate = .ok r)
    (h3 : optNullableListField o "partitions" AlertRulePercentsOfDisk.validate = .ok p)
    (h4 : optModelField o "download" AlertRulePoints.validate = .ok d)
    (h5 : optModelField o "upload" AlertRulePoints.validate = .ok u) :
    AlertRules.validate (.obj o) = .ok ⟨c, r, p, d, u⟩ := by
  simp only [AlertRules.validate, ok_bind, h1, h2, h3, h4, h5]

theorem alert_rules_roundtrip {a : AlertRules} (h : a.WF) :
    AlertRules.validate a.serialize = .ok a := by
  obtain ⟨c, r, p, d, u⟩ := a
  obtain ⟨hc, hr, hp, hd, hu⟩ := h
  refine alert_rules_validate_fields ?_ ?_ ?_ ?_ ?_
  · exact optModelField_of
      (by simp +decide [AlertRules.serialize, getField_append, getField_optEntry, Option.or_none, Option.none_or])
      (fun x hx => percents_roundtrip (hc x hx))
  · exact optModelField_of
      (by simp +decide [AlertRules.serialize, getField_append, getField_optEntry, Option.or_none, Option.none_or])
      (fun x hx => percents_roundtrip (hr x hx))
  · exact optNullableListField_of
      (by simp +decide [AlertRules.serialize, getField_append, getField_optEntry, Option.or_none, Option.none_or])
      (fun l hl x hx => disk_roundtrip (hp l hl x hx))
  · exact optModelField_of
      (by simp +decide [AlertRules.serialize, getField_append, getField_optEntry, Option.or_none, Option.none_or])
      (fun x hx => points_roundtrip (hd x hx))
  · exact optModelField_of
      (by simp +decide [AlertRules.serialize, getField_append, getField_optEntry, Option.or_none, Option.none_or])
      (fun x hx => points_roundtrip (hu x hx))

theorem resource_info_validate_fields {o : List (String × JsonValue)}
    {nm : String} {g : Option (List String)} {m : Option (List JsonValue)}
    {e : Option (List String)} {hs : Option (List JsonValue)}
    (h1 : reqField o "name" asStr = .ok nm)
    (h2 : optListField o "groups" (fun v =>
      match asStr v with
      | .error k => .error ⟨k, []⟩
      | .ok s => .ok s) = .ok g)
    (h3 : optListField o "mounts" opaqueExternal = .ok m)
    (h4 : optListField o "envs" (fun v =>
      match asStr v with
      | .error k => .error ⟨k, []⟩
      | .ok s => .ok s) = .ok e)
    (h5 : optListField o "hosts" opaqueExternal = .ok hs) :
    ResourceInfo.validate (.obj o) = .ok ⟨nm, g, m, e, hs⟩ := by
  simp only [ResourceInfo.validate, ok_bind, h1, h2, h3, h4, h5]

theorem resource_info_roundtrip (r : ResourceInfo) :
    ResourceInfo.validate r.serialize = .ok r := by
  obtain ⟨nm, g, m, e, hs⟩ := r
  refine resource_info_validate_fields ?_ ?_ ?_ ?_ ?_
  · exact reqField_of (v := .str nm)
      (by simp +decide [ResourceInfo.serialize, getField_append, getField_optEntry, getField,
        Option.or_none, Option.none_or]) rfl
  · exact optListField_of (g := JsonValue.str)
      (by simp +decide [ResourceInfo.serialize, getField_append, getField_optEntry, getField,
        Option.or_none, Option.none_or])
      (fun l _ s _ => rfl)
  · refine optListField_of (g := id) ?_ (fun l _ v _ => rfl)
    simp +decide [ResourceInfo.serialize, getField_append, getField_optEntry, getField,
      Option.or_none, Option.none_or, List.map_id]
  · exact optListField_of (g := JsonValue.str)
      (by simp +decide [ResourceInfo.serialize, getField_append, getField_optEntry, getField,
        Option.or_none, Option.none_or])
      (fun l _ s _ => rfl)
  · refine optListField_of (g := id) ?_ (fun l _ v _ => rfl)
    simp +decide [ResourceInfo.serialize, getField_append, getField_optEntry, getField,
      Option.or_none, Option.none_or, List.map_id]

theorem node_validate_fields {o : List (String × JsonValue)} {nt : String}
    {ni : Option String} {ar : Option AlertRules} {rr : Option ResourceRatiosInfo}
    {dv : Option (List JsonValue)} {rs : Option (List ResourceInfo)}
    {lb : Option (List String)} {pr : Int}
    (h1 : reqField o "nodeType" asStr = .ok nt)
    (h2 : optNullableScalarField o "nodeId" asStr = .ok ni)
    (h3 : optModelField o "alertRules" AlertRules.validate = .ok ar)
    (h4 : optModelField o "resourceRatios" ResourceRatiosInfo.validate = .ok rr)
    (h5 : optListField o "devices" opaqueExternal = .ok dv)
    (h6 : optListField o "resources" ResourceInfo.validate = .ok rs)
    (h7 : optListField o "labels" (fun v =>
      match asStr v with
      | .error k => .error ⟨k, []⟩
      | .ok s => .ok s) = .ok lb)
    (h8 : reqField o "priority" (fun v => (asInt v).bind (checkGeLtInt 0 (2 ^ 32 - 1))) = .ok pr) :
    NodeConfig.validate (.obj o) = .ok ⟨nt, ni, ar, rr, dv, rs, lb, pr⟩ := by
  simp only [NodeConfig.validate, ok_bind, h1, h2, h3, h4, h5, h6, h7, h8]

theorem node_roundtrip {n : NodeConfig} (h : n.WF) :
    NodeConfig.validate n.serialize = .ok n := by
  obtain ⟨nt, ni, ar, rr, dv, rs, lb, pr⟩ := n
  obtain ⟨har, hp1, hp2⟩ := h
  dsimp only at har hp1 hp2
  refine node_validate_fields ?_ ?_ ?_ ?_ ?_ ?_ ?_ ?_
  · exact reqField_of (v := .str nt)
      (by simp +decide [NodeConfig.serialize, getField_append, getField_optEntry, getField,
        Option.or_none, Option.none_or]) rfl
  · exact optNullableScalarField_str_of
      (by simp +decide [NodeConfig.serialize, getField_append, getField_optEntry, getField,
        Option.or_none, Option.none_or])
  · exact optModelField_of
      (by simp +decide [NodeConfig.serialize, getField_append, getField_optEntry, getField,
        Option.or_none, Option.none_or])
      (fun x hx => alert_rules_roundtrip (har x hx))
  · exact optModelField_of
      (by simp +decide [NodeConfig.serialize, getField_append, getField_optEntry, getField,
        Option.or_none, Option.none_or])
      (fun x _ => ratios_roundtrip x)
  · refine optListField_of (g := id) ?_ (fun l _ v _ => rfl)
    simp +decide [NodeConfig.serialize, getField_append, getField_optEntry, getField,
      Option.or_none, Option.none_or, List.map_id]
  · exact optListField_of (g := ResourceInfo.serialize)
      (by simp +decide [NodeConfig.serialize, getField_append, getField_optEntry, getField,
        Option.or_none, Option.none_or])
      (fun l _ x _ => resource_info_roundtrip x)
  · exact optListField_of (g := JsonValue.str)
      (by simp +decide [NodeConfig.serialize, getField_append, getField_optEntry, getField,
        Option.or_none, Option.none_or])
      (fun l _ s _ => rfl)
  · exact reqField_of (v := .int pr)
      (by simp +decide [NodeConfig.serialize, getField_append, getField_optEntry, getField,
        Option.or_none, Option.none_or])
      (by
        have hb : (0 : Int) ≤ pr ∧ pr < 4294967295 := ⟨hp1, by omega⟩
        simp [asInt, checkGeLtInt, Except.bind, hb])

theorem unit_validate_fields {o : List (String × JsonValue)}
    {fv : FormatVersion} {vr : String} {ns : List NodeConfig}
    (h1 : reqField o "formatVersion" asFormatVersion = .ok fv)
    (h2 : reqField o "version" asStr = .ok vr)
    (h3 : reqListField o "nodes" NodeConfig.validate = .ok ns) :
    UnitConfig.validate (.obj o) = .ok ⟨fv, vr, ns⟩ := by
  simp only [UnitConfig.validate, ok_bind, h1, h2, h3]

theorem unit_roundtrip {u : UnitConfig} (h : u.WF) :
    UnitConfig.validate u.serialize = .ok u := by
  obtain ⟨fv, vr, ns⟩ := u
  refine unit_validate_fields ?_ ?_ ?_
  · refine reqField_of (v := fv.serialize)
      (by simp +decide [UnitConfig.serialize, getField]) ?_
    cases fv <;> rfl
  · exact reqField_of (v := .str vr) (by simp +decide [UnitConfig.serialize, getField]) rfl
  · exact reqListField_of (g := NodeConfig.serialize)
      (by simp +decide [UnitConfig.serialize, getField])
      (fun x hx => node_roundtrip (h x hx))

/-- A `PercentThreshold` wire document with the three aliased numeric fields
present. -/
def percentsObj (a b c : ℚ) : JsonValue :=
  .obj [("minThreshold", .float a), ("maxThreshold", .float b), ("minTimeout", .float c)]

theorem validate_percentsObj (a b c : ℚ) :
    AlertRulePercents.validate (percentsObj a b c) =
      if 0 ≤ a ∧ a ≤ 100 then
        if 0 ≤ b ∧ b ≤ 100 then
          if 0 < c then .ok ⟨a, b, c⟩
          else .error ⟨.rangeViolation, ["minTimeout"]⟩
        else .error ⟨.rangeViolation, ["maxThreshold"]⟩
      else .error ⟨.rangeViolation, ["minThreshold"]⟩ := by
  by_cases h1 : 0 ≤ a ∧ a ≤ 100 <;> by_cases h2 : 0 ≤ b ∧ b ≤ 100 <;> by_cases h3 : 0 < c <;>
    simp +decide [AlertRulePercents.validate, percentsObj, reqField, getField, asFloat,
      checkGeLe, checkGt, h1, h2, h3, Bind.bind, Except.bind]

/-- A `PointThreshold` wire document with the three aliased fields present. -/
def pointsObj (m n : Int) (t : ℚ) : JsonValue :=
  .obj [("minThreshold", .int m), ("maxThreshold", .int n), ("minTimeout", .float t)]

theorem validate_pointsObj (m n : Int) (t : ℚ) :
    AlertRulePoints.validate (pointsObj m n t) =
      if 0 ≤ m then
        if 0 ≤ n then
          if 0 < t then .ok ⟨m, n, t⟩
          else .error ⟨.rangeViolation, ["minTimeout"]⟩
        else .error ⟨.rangeViolation, ["maxThreshold"]⟩
      else .error ⟨.rangeViolation, ["minThreshold"]⟩ := by
  by_cases h1 : 0 ≤ m <;> by_cases h2 : 0 ≤ n <;> by_cases h3 : 0 < t <;>
    simp +decide [AlertRulePoints.validate, pointsObj, reqField, getField, asInt, asFloat,
      checkGeInt, checkGt, h1, h2, h3, Bind.bind, Except.bind]

/-- A minimal `NodeConfig` wire document: a `nodeType` and a `priority`, all
optional fields absent. -/
def nodePrioObj (p : Int) : JsonValue :=
  .obj [("nodeType", .str "main"), ("priority", .int p)]

theorem validate_nodePrioObj (p : Int) :
    NodeConfig.validate (nodePrioObj p) =
      if 0 ≤ p ∧ p < 2 ^ 32 - 1 then .ok ⟨"main", none, none, none, none, none, none, p⟩
      else .error ⟨.rangeViolation, ["priority"]⟩ := by
  by_cases h : 0 ≤ p ∧ p < 2 ^ 32 - 1
  · have hb : (0 : Int) ≤ p ∧ p < 4294967295 := ⟨h.1, by omega⟩
    simp +decide [NodeConfig.validate, nodePrioObj, reqField, optNullableScalarField,
      optModelField, optScalarField, optListField, getField, asStr, asInt, checkGeLtInt,
      h, hb, Bind.bind, Except.bind]
  · have hb : ¬((0 : Int) ≤ p ∧ p < 4294967295) := by
      intro hc
      exact h ⟨hc.1, by omega⟩
    simp +decide [NodeConfig.validate, nodePrioObj, reqField, optNullableScalarField,
      optModelField, optScalarField, optListField, getField, asStr, asInt, checkGeLtInt,
      h, hb, Bind.bind, Except.bind]

/-- C1: an `AlertRulePercents` (`PercentThreshold`) built from structured numeric
input is accepted exactly when `0 ≤ min_threshold ≤ 100`, `0 ≤ max_threshold ≤ 100`
and `min_timeout > 0`; the accepted value keeps the input values exactly (never
clamped); an out-of-range bound is rejected with a RangeViolation at that field,
and an absent field is rejected with MissingRequiredField. -/
theorem C1_percent_threshold_bounds (a b c : ℚ) :
    (AlertRulePercents.validate (percentsObj a b c) = .ok ⟨a, b, c⟩ ↔
      0 ≤ a ∧ a ≤ 100 ∧ 0 ≤ b ∧ b ≤ 100 ∧ 0 < c)
    ∧ (∀ r, AlertRulePercents.validate (percentsObj a b c) = .ok r → r = ⟨a, b, c⟩)
    ∧ (¬(0 ≤ a ∧ a ≤ 100 ∧ 0 ≤ b ∧ b ≤ 100 ∧ 0 < c) →
        ∃ key, AlertRulePercents.validate (percentsObj a b c) =
          .error ⟨.rangeViolation, [key]⟩)
    ∧ AlertRulePercents.validate
        (.obj [("maxThreshold", .float b), ("minTimeout", .float c)]) =
        .error ⟨.missingRequiredField, ["minThreshold"]⟩
    ∧ (0 ≤ a ∧ a ≤ 100 →
        AlertRulePercents.validate
          (.obj [("minThreshold", .float a), ("minTimeout", .float c)]) =
          .error ⟨.missingRequiredField, ["maxThreshold"]⟩)
    ∧ (0 ≤ a ∧ a ≤ 100 → 0 ≤ b ∧ b ≤ 100 →
        AlertRulePercents.validate
          (.obj [("minThreshold", .float a), ("maxThreshold", .float b)]) =
          .error ⟨.missingRequiredField, ["minTimeout"]⟩) := by
  refine ⟨?_, ?_, ?_, ?_, ?_, ?_⟩
  · rw [validate_percentsObj]
    split_ifs with h1 h2 h3 <;> simp_all
  · rw [validate_percentsObj]
    split_ifs <;> intro r h <;> simp_all
  · intro h
    rw [validate_percentsObj]
    split_ifs with h1 h2 h3
    · exact absurd ⟨h1.1, h1.2, h2.1, h2.2, h3⟩ h
    · exact ⟨"minTimeout", rfl⟩
    · exact ⟨"maxThreshold", rfl⟩
    · exact ⟨"minThreshold", rfl⟩
  · simp +decide [AlertRulePercents.validate, reqField, getField, Bind.bind, Except.bind]
  · intro h1
    simp +decide [AlertRulePercents.validate, reqField, getField, asFloat, checkGeLe,
      h1, Bind.bind, Except.bind]
  · intro h1 h2
    simp +decide [AlertRulePercents.validate, reqField, getField, asFloat, checkGeLe,
      h1, h2, Bind.bind, Except.bind]

/-- Witness for C1 at concrete inputs: `(10, 80, 30)` is accepted unchanged,
`(10, 150, 30)` is rejected with a RangeViolation, and dropping `maxThreshold`
is rejected as missing. -/
theorem C1_percent_threshold_bounds_witness :
    AlertRulePercents.validate (percentsObj 10 80 30) = .ok ⟨10, 80, 30⟩
    ∧ (∃ key, AlertRulePercents.validate (percentsObj 10 150 30) =
        .error ⟨.rangeViolation, [key]⟩)
    ∧ AlertRulePercents.validate
        (.obj [("minThreshold", .float 10), ("minTimeout", .float 30)]) =
        .error ⟨.missingRequiredField, ["maxThreshold"]⟩ :=
  ⟨(C1_percent_threshold_bounds 10 80 30).1.mpr (by norm_num),
   (C1_percent_threshold_bounds 10 150 30).2.2.1 (by norm_num),
   (C1_percent_threshold_bounds 10 80 30).2.2.2.2.1 (by norm_num)⟩

/-- C2 counterexample: an `AlertRulePercentsOfDisk` document whose `name` is the
empty string is accepted (no emptiness constraint is declared on `name`),
refuting that an empty-string name is rejected and that every accepted instance
has a non-empty name. -/
theorem C2_empty_name_accepted :
    AlertRulePercentsOfDisk.validate
      (.obj [("minThreshold", .float 10), ("maxThreshold", .float 80),
             ("minTimeout", .float 30), ("name", .str "")]) =
      .ok ⟨10, 80, 30, ""⟩ := by
  simp +decide [AlertRulePercentsOfDisk.validate, reqField, getField, asFloat, asStr,
    checkGeLe, checkGt, Bind.bind, Except.bind]

/-- C2 (amended): the partition `name` of an `AlertRulePercentsOfDisk` is
mandatory — input without it is rejected with MissingRequiredField — and must
be a string, but no non-emptiness check exists: any string value, the empty
string included, is accepted. -/
theorem C2_name_required_any_string (a b c : ℚ) (s : String) :
    (0 ≤ a ∧ a ≤ 100 → 0 ≤ b ∧ b ≤ 100 → 0 < c →
      AlertRulePercentsOfDisk.validate
        (.obj [("minThreshold", .float a), ("maxThreshold", .float b),
               ("minTimeout", .float c)]) =
        .error ⟨.missingRequiredField, ["name"]⟩)
    ∧ (AlertRulePercentsOfDisk.validate
        (.obj [("minThreshold", .float a), ("maxThreshold", .float b),
               ("minTimeout", .float c), ("name", .str s)]) = .ok ⟨a, b, c, s⟩ ↔
        0 ≤ a ∧ a ≤ 100 ∧ 0 ≤ b ∧ b ≤ 100 ∧ 0 < c) := by
  constructor
  · intro h1 h2 h3
    simp +decide [AlertRulePercentsOfDisk.validate, reqField, getField, asFloat, asStr,
      checkGeLe, checkGt, h1, h2, h3, Bind.bind, Except.bind]
  · by_cases h1 : 0 ≤ a ∧ a ≤ 100 <;> by_cases h2 : 0 ≤ b ∧ b ≤ 100 <;> by_cases h3 : 0 < c <;>
      simp +decide [AlertRulePercentsOfDisk.validate, reqField, getField, asFloat, asStr,
        checkGeLe, checkGt, h1, h2, h3, Bind.bind, Except.bind]

/-- Witness for C2's amended statement at concrete inputs. -/
theorem C2_name_required_any_string_witness :
    AlertRulePercentsOfDisk.validate
      (.obj [("minThreshold", .float 10), ("maxThreshold", .float 80),
             ("minTimeout", .float 30)]) =
      .error ⟨.missingRequiredField, ["name"]⟩
    ∧ AlertRulePercentsOfDisk.validate
        (.obj [("minThreshold", .float 10), ("maxThreshold", .float 80),
               ("minTimeout", .float 30), ("name", .str "p1")]) =
        .ok ⟨10, 80, 30, "p1"⟩ :=
  ⟨(C2_name_required_any_string 10 80 30 "p1").1 (by norm_num) (by norm_num) (by norm_num),
   (C2_name_required_any_string 10 80 30 "p1").2.mpr (by norm_num)⟩

/-- C3: with `node_type` present and every other field valid (absent), a
`NodeConfig` is accepted exactly when `0 ≤ priority < 2^32 - 1`; in particular
`priority = 2^32 - 2` is accepted, while `priority = 2^32 - 1` and
`priority = -1` are rejected with a RangeViolation. -/
theorem C3_node_priority_bounds (p : Int) :
    (NodeConfig.validate (nodePrioObj p) =
        .ok ⟨"main", none, none, none, none, none, none, p⟩ ↔ 0 ≤ p ∧ p < 2 ^ 32 - 1)
    ∧ (¬(0 ≤ p ∧ p < 2 ^ 32 - 1) →
        NodeConfig.validate (nodePrioObj p) = .error ⟨.rangeViolation, ["priority"]⟩)
    ∧ NodeConfig.validate (nodePrioObj (2 ^ 32 - 2)) =
        .ok ⟨"main", none, none, none, none, none, none, 2 ^ 32 - 2⟩
    ∧ NodeConfig.validate (nodePrioObj (2 ^ 32 - 1)) = .error ⟨.rangeViolation, ["priority"]⟩
    ∧ NodeConfig.validate (nodePrioObj (-1)) = .error ⟨.rangeViolation, ["priority"]⟩ := by
  refine ⟨?_, ?_, ?_, ?_, ?_⟩
  · rw [validate_nodePrioObj]
    split_ifs with h <;> simp_all
  · intro h
    rw [validate_nodePrioObj, if_neg h]
  · rw [validate_nodePrioObj, if_pos (by norm_num)]
  · rw [validate_nodePrioObj, if_neg (by norm_num)]
  · rw [validate_nodePrioObj, if_neg (by norm_num)]

/-- Witness for C3's conditional part at the concrete out-of-range input
`priority = 2^32 - 1`. -/
theorem C3_node_priority_bounds_witness :
    NodeConfig.validate (nodePrioObj (2 ^ 32 - 1)) = .error ⟨.rangeViolation, ["priority"]⟩
    ∧ NodeConfig.validate (nodePrioObj (2 ^ 32 - 2)) =
        .ok ⟨"main", none, none, none, none, none, none, 2 ^ 32 - 2⟩ :=
  ⟨(C3_node_priority_bounds 0).2.2.2.1,
   (C3_node_priority_bounds (2 ^ 32 - 2)).1.mpr (by norm_num)⟩

/-- C5: an `AlertRulePoints` (`PointThreshold`) is accepted exactly when both
point bounds are non-negative (no upper ceiling: the equivalence holds for
arbitrarily large integers) and the timeout is positive; a negative bound is
rejected with a RangeViolation at that field. -/
theorem C5_point_threshold_bounds (m n : Int) (t : ℚ) :
    (AlertRulePoints.validate (pointsObj m n t) = .ok ⟨m, n, t⟩ ↔ 0 ≤ m ∧ 0 ≤ n ∧ 0 < t)
    ∧ (m < 0 →
        AlertRulePoints.validate (pointsObj m n t) = .error ⟨.rangeViolation, ["minThreshold"]⟩)
    ∧ (0 ≤ m → n < 0 →
        AlertRulePoints.validate (pointsObj m n t) = .error ⟨.rangeViolation, ["maxThreshold"]⟩) := by
  refine ⟨?_, ?_, ?_⟩
  · rw [validate_pointsObj]
    split_ifs with h1 h2 h3 <;> simp_all
  · intro h
    rw [validate_pointsObj, if_neg (by omega)]
  · intro h1 h2
    rw [validate_pointsObj, if_pos h1, if_neg (by omega)]

/-- Witness for C5: a very large point threshold is accepted and a negative one
is rejected. -/
theorem C5_point_threshold_bounds_witness :
    AlertRulePoints.validate (pointsObj (10 ^ 30) (10 ^ 30) 1) =
      .ok ⟨10 ^ 30, 10 ^ 30, 1⟩
    ∧ AlertRulePoints.validate (pointsObj (-1) 0 1) =
      .error ⟨.rangeViolation, ["minThreshold"]⟩ :=
  ⟨(C5_point_threshold_bounds (10 ^ 30) (10 ^ 30) 1).1.mpr (by norm_num),
   (C5_point_threshold_bounds (-1) 0 1).2.1 (by norm_num)⟩

/-- C4: serializing a validated `UnitConfig` to its wire representation and
re-parsing that output yields a value equal in every field — the `nodes` list
(and its order) and the original string/int representation of `format_version`
are carried unchanged inside the structure equality. -/
theorem C4_unit_config_roundtrip (j : JsonValue) (u : UnitConfig)
    (h : UnitConfig.validate j = .ok u) :
    UnitConfig.validate u.serialize = .ok u :=
  unit_roundtrip (unit_validate_wf h)

/-- Witness for C4: two concrete documents, one with `"formatVersion": "2"` and
one with `"formatVersion": 2`, each validating and then round-tripping with its
representation tag preserved. -/
theorem C4_unit_config_roundtrip_witness :
    UnitConfig.validate
      (UnitConfig.serialize ⟨.str "2", "1.0.0",
        [⟨"main", none, none, none, none, none, none, 5⟩]⟩) =
      .ok ⟨.str "2", "1.0.0", [⟨"main", none, none, none, none, none, none, 5⟩]⟩
    ∧ UnitConfig.validate
        (UnitConfig.serialize ⟨.int 2, "1.0.0",
          [⟨"main", none, none, none, none, none, none, 5⟩]⟩) =
        .ok ⟨.int 2, "1.0.0", [⟨"main", none, none, none, none, none, none, 5⟩]⟩ :=
  ⟨C4_unit_config_roundtrip
      (.obj [("formatVersion", .str "2"), ("version", .str "1.0.0"),
             ("nodes", .arr [nodePrioObj 5])])
      ⟨.str "2", "1.0.0", [⟨"main", none, none, none, none, none, none, 5⟩]⟩
      (by rfl),
   C4_unit_config_roundtrip
      (.obj [("formatVersion", .int 2), ("version", .str "1.0.0"),
             ("nodes", .arr [nodePrioObj 5])])
      ⟨.int 2, "1.0.0", [⟨"main", none, none, none, none, none, none, 5⟩]⟩
      (by rfl)⟩

/-- The concrete `NodeConfig` document of the spec's scenario, with
`alertRules.cpu.maxThreshold = 150` out of range. -/
def cpuBadDoc : JsonValue :=
  .obj [("nodeType", .str "main"), ("priority", .int 5),
        ("alertRules", .obj [("cpu", .obj [("minThreshold", .float 10),
          ("maxThreshold", .float 150), ("minTimeout", .float 30)])])]

/-- C6: a nested validation failure is reported with the dotted field path from
the document root: the document with `alertRules.cpu.maxThreshold = 150` fails
with a RangeViolation whose path renders as `alertRules.cpu.maxThreshold`; in
general any failure of a nested sub-object is re-raised at the containing
boundary as the single error of the call, with the containing field's alias
prepended to its path. -/
theorem C6_nested_error_path :
    NodeConfig.validate cpuBadDoc =
      .error ⟨.rangeViolation, ["alertRules", "cpu", "maxThreshold"]⟩
    ∧ VErr.pathStr ⟨.rangeViolation, ["alertRules", "cpu", "maxThreshold"]⟩ =
      "alertRules.cpu.maxThreshold"
    ∧ (∀ v e, AlertRulePercents.validate v = .error e →
        AlertRules.validate (.obj [("cpu", v)]) = .error ⟨e.kind, "cpu" :: e.path⟩)
    ∧ (∀ v e, AlertRules.validate v = .error e →
        NodeConfig.validate
          (.obj [("nodeType", .str "main"), ("priority", .int 5), ("alertRules", v)]) =
          .error ⟨e.kind, "alertRules" :: e.path⟩) := by
  refine ⟨?_, ?_, ?_, ?_⟩
  · rfl
  · rfl
  · intro v e h
    simp +decide [AlertRules.validate, optModelField, getField, h, Bind.bind, Except.bind]
  · intro v e h
    simp +decide [NodeConfig.validate, reqField, optNullableScalarField, optModelField,
      getField, asStr, h, Bind.bind, Except.bind]

/-- Witness for C6's propagation parts: the empty object is missing
`minThreshold`, and that error surfaces with the `cpu` / `alertRules` path
components prepended. -/
theorem C6_nested_error_path_witness :
    AlertRules.validate (.obj [("cpu", .obj [])]) =
      .error ⟨.missingRequiredField, ["cpu", "minThreshold"]⟩
    ∧ NodeConfig.validate
        (.obj [("nodeType", .str "main"), ("priority", .int 5),
               ("alertRules", .obj [("cpu", .obj [])])]) =
        .error ⟨.missingRequiredField, ["alertRules", "cpu", "minThreshold"]⟩ :=
  ⟨C6_nested_error_path.2.2.1 (.obj []) ⟨.missingRequiredField, ["minThreshold"]⟩ rfl,
   C6_nested_error_path.2.2.2 (.obj [("cpu", .obj [])])
     ⟨.missingRequiredField, ["cpu", "minThreshold"]⟩
     (C6_nested_error_path.2.2.1 (.obj []) ⟨.missingRequiredField, ["minThreshold"]⟩ rfl)⟩

/-- C7: a `NodeConfig` document without the `alertRules` key parses to the
absent state (`none`, "no alert rules configured"), which is distinguishable
from a document carrying an empty `alertRules` object, which parses to a
present `AlertRules` bundle with all five slots absent; both validate
successfully. -/
theorem C7_absent_vs_empty_alert_rules :
    NodeConfig.validate (.obj [("nodeType", .str "main"), ("priority", .int 0)]) =
      .ok ⟨"main", none, none, none, none, none, none, 0⟩
    ∧ NodeConfig.validate
        (.obj [("nodeType", .str "main"), ("priority", .int 0), ("alertRules", .obj [])]) =
        .ok ⟨"main", none, some ⟨none, none, none, none, none⟩, none, none, none, none, 0⟩
    ∧ (none : Option AlertRules) ≠ some ⟨none, none, none, none, none⟩ := by
  refine ⟨rfl, rfl, ?_⟩
  simp

/-- A `ResourceRatiosInfo` wire document carrying exactly the present fields of
the four options. -/
def ratiosObj (a b c d : Option ℚ) : JsonValue :=
  .obj (optEntry "cpu" (a.map .float) ++ optEntry "ram" (b.map .float) ++
        optEntry "storage" (c.map .float) ++ optEntry "state" (d.map .float))

/-- C8: each of the four `ResourceRatiosInfo` fields is independently optional —
any subset of `cpu`, `ram`, `storage`, `state` may be absent and construction
succeeds, returning the present values exactly — and a present field is checked
only for numeric type: no [0,100] range check and no sum-to-100 constraint is
applied (negative values, values above 100 and sums above 100 are accepted),
while a non-numeric value is a TypeMismatch. -/
theorem C8_resource_ratios_unconstrained (a b c d : Option ℚ) :
    ResourceRatiosInfo.validate (ratiosObj a b c d) = .ok ⟨a, b, c, d⟩
    ∧ ResourceRatiosInfo.validate (ratiosObj (some (-5)) (some 1000) none (some 200)) =
      .ok ⟨some (-5), some 1000, none, some 200⟩
    ∧ ResourceRatiosInfo.validate (.obj [("cpu", .str "abc")]) =
      .error ⟨.typeMismatch, ["cpu"]⟩ :=
  ⟨ratios_roundtrip ⟨a, b, c, d⟩,
   ratios_roundtrip ⟨some (-5), some 1000, none, some 200⟩,
   rfl⟩

/-- C9: field population is by the declared lowerCamelCase wire aliases only — a
`PercentThreshold` document keyed `minThreshold`/`maxThreshold`/`minTimeout` is
accepted, while the same values keyed with the internal snake_case identifiers
are rejected with the required aliased field reported missing — and
serialization emits exactly the three wire names. -/
theorem C9_alias_wire_names :
    AlertRulePercents.validate
      (.obj [("minThreshold", .float 10), ("maxThreshold", .float 80),
             ("minTimeout", .float 30)]) = .ok ⟨10, 80, 30⟩
    ∧ AlertRulePercents.validate
        (.obj [("min_threshold", .float 10), ("max_threshold", .float 80),
               ("min_timeout", .float 30)]) =
        .error ⟨.missingRequiredField, ["minThreshold"]⟩
    ∧ ∀ r : AlertRulePercents, ∃ v1 v2 v3,
        r.serialize = .obj [("minThreshold", v1), ("maxThreshold", v2), ("minTimeout", v3)] := by
  refine ⟨rfl, rfl, ?_⟩
  intro r
  exact ⟨_, _, _, rfl⟩

/-- C10 counterexample: a numeric field supplied as a string is not rejected —
the default (lax) validation silently coerces the string "10" supplied for
`minThreshold` into the number 10 and accepts the document, refuting that every
string-valued numeric field yields a TypeMismatch. -/
theorem C10_numeric_string_coerced :
    AlertRulePercents.validate
      (.obj [("minThreshold", .str "10"), ("maxThreshold", .float 80),
             ("minTimeout", .float 30)]) = .ok ⟨10, 80, 30⟩ := by
  simp +decide [AlertRulePercents.validate, reqField, getField, asFloat, parseQ,
    parseUnsignedQ, splitOnDot, natOfDigits?, digitsVal?, checkGeLe, checkGt,
    Bind.bind, Except.bind]

/-- C10 (amended): a numeric field supplied as a string that does not parse as a
decimal numeral is rejected with a TypeMismatch and the containing document is
wholly rejected (likewise for `null` and boolean values); a string holding a
decimal numeral, however, is silently coerced to the number (lax mode). -/
theorem C10_string_type_mismatch :
    AlertRulePercents.validate
      (.obj [("minThreshold", .str "abc"), ("maxThreshold", .float 80),
             ("minTimeout", .float 30)]) = .error ⟨.typeMismatch, ["minThreshold"]⟩
    ∧ AlertRulePercents.validate
        (.obj [("minThreshold", .null), ("maxThreshold", .float 80),
               ("minTimeout", .float 30)]) = .error ⟨.typeMismatch, ["minThreshold"]⟩
    ∧ AlertRulePercents.validate
        (.obj [("minThreshold", .str "10"), ("maxThreshold", .float 80),
               ("minTimeout", .float 30)]) = .ok ⟨10, 80, 30⟩ := by
  refine ⟨rfl, rfl, ?_⟩
  simp +decide [AlertRulePercents.validate, reqField, getField, asFloat, parseQ,
    parseUnsignedQ, splitOnDot, natOfDigits?, digitsVal?, checkGeLe, checkGt,
    Bind.bind, Except.bind]

end AosUnitConfig
